import Mathlib

/-!
Continuous Compliance Engine: verification of the check-run pipeline.

Shallow embedding of the compliance check-run pipeline:

* `db/models.py` — `Severity`, `EvalStatus`, and the `Control`, `Evidence`,
  `Evaluation`, `Alert` rows (surrogate uuid keys become `Nat` ids,
  timestamps become `Nat`).
* `evaluator/evaluate.py` — `evaluate_control` and the three per-control
  rules `_evaluate_cc6_1`, `_evaluate_cc7_2`, `_evaluate_cc8_1`.
* `collectors/{github,iam,logging}.py` — the deterministic mock collectors
  (the `SIMULATE_DRIFT` environment switch becomes an explicit `Bool`
  parameter).
* `scripts/run_checks.py` — `run_checks_service` and
  `_collect_evidence_for_source`.
* `controls/loader.py` — `upsert_controls` (the update/insert step, over an
  in-memory table; YAML parsing is file input outside the pipeline).

JSON-shaped payloads (`raw_snapshot`, `expected_state`, verdict `details`)
are embedded as records of `Option`-valued fields, one field per key that
the pipeline reads or writes; `dict.get(key, default)` becomes
`Option.getD`.  Keys in the mock payloads that no evaluator ever reads
(`privileged_users`, `recent_prs`, `log_sources`, ...) are not modelled.
Python integers become `Int`, booleans `Bool`, strings `String`.
-/

namespace CCE

/-- The `Severity` enum from `db/models.py`. -/
inductive Severity where
  | low
  | medium
  | high
deriving DecidableEq, Repr

/-- The `Severity.value` string payload of the Python `str`-enum. -/
def Severity.value : Severity → String
  | .low => "low"
  | .medium => "medium"
  | .high => "high"

/-- The `EvalStatus` enum from `db/models.py` (`pass_ = "PASS"`, `fail = "FAIL"`). -/
inductive EvalStatus where
  | pass_
  | fail
deriving DecidableEq, Repr

instance : BEq Severity := ⟨fun a b => decide (a = b)⟩
instance : BEq EvalStatus := ⟨fun a b => decide (a = b)⟩

/-- One branch-protection entry inside the github snapshot
(`raw_snapshot["branch_protection"]["main"/"master"]`). -/
structure BranchProtection where
  enabled : Option Bool := none
  required_approving_review_count : Option Int := none
  dismiss_stale_reviews : Option Bool := none
  require_code_owner_reviews : Option Bool := none
  enforce_admins : Option Bool := none
deriving DecidableEq, Repr

/-- A `raw_snapshot` payload: the union of the keys the evaluator reads and
the error marker written by the unknown-source fallback.  An absent key is
`none`.  A present-but-empty `branch_protection` sub-dict is identified with
an absent one (Python `or` treats the empty dict as falsy). -/
structure RawSnapshot where
  mfa_required_for_privileged_users : Option Bool := none
  admin_access_restricted : Option Bool := none
  admin_users_without_mfa : Option Int := none
  centralized_logging_enabled : Option Bool := none
  log_retention_days : Option Int := none
  branch_protection_main : Option BranchProtection := none
  branch_protection_master : Option BranchProtection := none
  pr_reviews_required : Option Bool := none
  production_deploy_approvals_required : Option Bool := none
  error : Option String := none
deriving DecidableEq, Repr

/-- A control's `expected_state` mapping (keys read by the three evaluators). -/
structure ExpectedState where
  mfa_required_for_privileged_users : Option Bool := none
  admin_access_restricted : Option Bool := none
  centralized_logging_enabled : Option Bool := none
  log_retention_days_minimum : Option Int := none
  pr_reviews_required : Option Bool := none
  production_deploy_approvals_required : Option Bool := none
deriving DecidableEq, Repr

/-- The dict returned by a collector:
`{collected_at, source_system, raw_snapshot}`. -/
structure EvidenceData where
  collected_at : Nat
  source_system : String
  raw_snapshot : RawSnapshot
deriving DecidableEq, Repr

/-- The `"actual"` block of a verdict's details. -/
structure ActualView where
  mfa_required_for_privileged_users : Option Bool := none
  admin_access_restricted : Option Bool := none
  admin_users_without_mfa : Option Int := none
  centralized_logging_enabled : Option Bool := none
  log_retention_days : Option Int := none
  pr_reviews_required : Option Bool := none
  production_deploy_approvals_required : Option Bool := none
  branch_protection : Option BranchProtection := none
deriving DecidableEq, Repr

/-- A verdict's `details` dict: issue list, error marker, expected/actual echo. -/
structure Details where
  issues : List String := []
  error : Option String := none
  expected : Option ExpectedState := none
  actual : Option ActualView := none
deriving DecidableEq, Repr

/-- The dict returned by `evaluate_control`. -/
structure Verdict where
  status : EvalStatus
  severity : Severity
  remediation : String
  details : Details
deriving DecidableEq, Repr

/-- A normalized control (the `Control` row as consumed by the pipeline);
`evidence_sources` keeps only the `"system"` value of each entry, which is
all `run_checks_service` reads. -/
structure Control where
  control_id : String
  name : String
  risk : String := ""
  expected_state : ExpectedState
  evidence_sources : List String
  severity : Severity
  check_frequency : String := "daily"
deriving DecidableEq, Repr

/-- An `Evidence` row (`db/models.py`); the uuid primary key becomes a `Nat`. -/
structure EvidenceRow where
  id : Nat
  control_id : String
  source_system : String
  collected_at : Nat
  raw_snapshot : RawSnapshot
deriving DecidableEq, Repr

/-- An `Evaluation` row (`db/models.py`). -/
structure EvaluationRow where
  control_id : String
  evidence_id : Nat
  evaluated_at : Nat
  status : EvalStatus
  severity : Severity
  remediation : String
  details : Details
deriving DecidableEq, Repr

/-- An `Alert` row (`db/models.py`); `acknowledged` defaults to false. -/
structure AlertRow where
  control_id : String
  severity : Severity
  message : String
  remediation : String
  acknowledged : Bool := false
deriving DecidableEq, Repr

/-- An entry of the summary's `failed_controls` list (severity is stored as
its `.value` string, as in the source). -/
structure FailedEntry where
  control_id : String
  name : String
  severity : String
  remediation : String
deriving DecidableEq, Repr

/-- The run summary returned by `run_checks_service`. -/
structure Summary where
  run_at : Nat
  controls_processed : Nat
  controls_passed : Nat
  controls_failed : Nat
  evidence_collected : Nat
  evaluations_created : Nat
  alerts_created : Nat
  failed_controls : List FailedEntry
deriving DecidableEq, Repr

/-- The mutable store visited by one run: the three tables the orchestrator
writes, plus the surrogate-id counter standing in for uuid generation. -/
structure DB where
  next_id : Nat := 0
  evidence : List EvidenceRow := []
  evaluations : List EvaluationRow := []
  alerts : List AlertRow := []
deriving DecidableEq, Repr

def emptyDB : DB := {}

/-! ## Evaluator (`evaluator/evaluate.py`) -/

/-- Python `dict` lookup over an association list built by repeated
assignment: the latest binding for a key wins. -/
def dictLookup (l : List (String × EvidenceData)) (k : String) : Option EvidenceData :=
  l.foldl (fun acc kv => if kv.1 == k then some kv.2 else acc) none

/-- Models `evidence_by_source.get(src, {}).get("raw_snapshot", {})`: the snapshot
for a source, defaulting to the empty payload when the source is absent. -/
def snapshotFor (evidence_by_source : List (String × EvidenceData)) (src : String) :
    RawSnapshot :=
  match dictLookup evidence_by_source src with
  | some ev => ev.raw_snapshot
  | none => {}

/-- The issue list collected by `_evaluate_cc6_1`. -/
def cc61Issues (expected : ExpectedState) (snapshot : RawSnapshot) : List String :=
  let mfa_required := expected.mfa_required_for_privileged_users.getD false
  let admin_restricted := expected.admin_access_restricted.getD false
  let actual_mfa := snapshot.mfa_required_for_privileged_users.getD false
  let actual_admin_restricted := snapshot.admin_access_restricted.getD false
  let admin_without_mfa := snapshot.admin_users_without_mfa.getD 999
  (if mfa_required && !actual_mfa then ["MFA not required for privileged users"] else []) ++
  (if admin_restricted && !actual_admin_restricted then ["Admin access not properly restricted"] else []) ++
  (if admin_without_mfa > 0 then [toString admin_without_mfa ++ " admin user(s) without MFA"] else [])

/-- The fixed failure remediation text of CC6.1. -/
def cc61_remediation : String :=
  "1. Enable MFA enforcement policy for all privileged roles.\n2. Review and restrict admin role assignments to minimum necessary users.\n3. Verify all admin users have MFA devices enrolled."

/-- Function `_evaluate_cc6_1` from `evaluator/evaluate.py`. -/
def evaluate_cc6_1 (control : Control) (evidence_by_source : List (String × EvidenceData))
    (expected : ExpectedState) : Verdict :=
  let snapshot := snapshotFor evidence_by_source "cloud_iam"
  let issues := cc61Issues expected snapshot
  if issues = [] then
    { status := .pass_
      severity := control.severity
      remediation := "No action required."
      details :=
        { expected := some expected
          actual := some
            { mfa_required_for_privileged_users :=
                some (snapshot.mfa_required_for_privileged_users.getD false)
              admin_access_restricted :=
                some (snapshot.admin_access_restricted.getD false) } } }
  else
    { status := .fail
      severity := control.severity
      remediation := cc61_remediation
      details :=
        { issues := issues
          expected := some expected
          actual := some
            { mfa_required_for_privileged_users :=
                some (snapshot.mfa_required_for_privileged_users.getD false)
              admin_access_restricted :=
                some (snapshot.admin_access_restricted.getD false)
              admin_users_without_mfa :=
                some (snapshot.admin_users_without_mfa.getD 999) } } }

/-- The issue list collected by `_evaluate_cc7_2`. -/
def cc72Issues (expected : ExpectedState) (snapshot : RawSnapshot) : List String :=
  let expected_enabled := expected.centralized_logging_enabled.getD false
  let expected_retention_min := expected.log_retention_days_minimum.getD 0
  let actual_enabled := snapshot.centralized_logging_enabled.getD false
  let actual_retention := snapshot.log_retention_days.getD 0
  (if expected_enabled && !actual_enabled then ["Centralized logging not enabled"] else []) ++
  (if actual_retention < expected_retention_min then
    ["Log retention " ++ toString actual_retention ++ " days is below minimum " ++
      toString expected_retention_min ++ " days"]
  else [])

/-- The failure remediation text of CC7.2 (fixed up to the control's
declared minimum retention). -/
def cc72_remediation (expected_retention_min : Int) : String :=
  "1. Enable centralized log shipping from all production systems.\n2. Configure log retention policy to retain logs for at least " ++
    toString expected_retention_min ++
    " days.\n3. Verify log aggregation system is receiving logs from all critical sources."

/-- Function `_evaluate_cc7_2` from `evaluator/evaluate.py`. -/
def evaluate_cc7_2 (control : Control) (evidence_by_source : List (String × EvidenceData))
    (expected : ExpectedState) : Verdict :=
  let snapshot := snapshotFor evidence_by_source "cicd"
  let issues := cc72Issues expected snapshot
  if issues = [] then
    { status := .pass_
      severity := control.severity
      remediation := "No action required."
      details :=
        { expected := some expected
          actual := some
            { centralized_logging_enabled :=
                some (snapshot.centralized_logging_enabled.getD false)
              log_retention_days := some (snapshot.log_retention_days.getD 0) } } }
  else
    { status := .fail
      severity := control.severity
      remediation := cc72_remediation (expected.log_retention_days_minimum.getD 0)
      details :=
        { issues := issues
          expected := some expected
          actual := some
            { centralized_logging_enabled :=
                some (snapshot.centralized_logging_enabled.getD false)
              log_retention_days := some (snapshot.log_retention_days.getD 0) } } }

/-- Models `branch_protection.get("main") or branch_protection.get("master", {})`. -/
def mainProtection (github_snapshot : RawSnapshot) : BranchProtection :=
  match github_snapshot.branch_protection_main with
  | some m => m
  | none => github_snapshot.branch_protection_master.getD {}

/-- The `actual_pr_reviews` boolean of `_evaluate_cc8_1`. -/
def cc81ActualPrReviews (github_snapshot : RawSnapshot) : Bool :=
  github_snapshot.pr_reviews_required.getD false ||
    decide ((mainProtection github_snapshot).required_approving_review_count.getD 0 ≥ 2)

/-- The `actual_deploy_approvals` boolean of `_evaluate_cc8_1`. -/
def cc81ActualDeployApprovals (github_snapshot cicd_snapshot : RawSnapshot) : Bool :=
  github_snapshot.production_deploy_approvals_required.getD false ||
    cicd_snapshot.production_deploy_approvals_required.getD false ||
    (mainProtection github_snapshot).enforce_admins.getD false

/-- The issue list collected by `_evaluate_cc8_1`. -/
def cc81Issues (expected : ExpectedState) (github_snapshot cicd_snapshot : RawSnapshot) :
    List String :=
  let expected_pr_reviews := expected.pr_reviews_required.getD false
  let expected_deploy_approvals := expected.production_deploy_approvals_required.getD false
  (if expected_pr_reviews && !cc81ActualPrReviews github_snapshot then
    ["PR reviews not required for production branches"]
  else []) ++
  (if expected_deploy_approvals && !cc81ActualDeployApprovals github_snapshot cicd_snapshot then
    ["Production deploy approvals not enforced"]
  else [])

/-- The fixed failure remediation text of CC8.1. -/
def cc81_remediation : String :=
  "1. Enable branch protection rules for main/master branch.\n2. Require at least 2 PR approvals before merge.\n3. Enforce admin approval requirements for production deployments.\n4. Verify CI/CD pipeline blocks deployments without approvals."

/-- Function `_evaluate_cc8_1` from `evaluator/evaluate.py`. -/
def evaluate_cc8_1 (control : Control) (evidence_by_source : List (String × EvidenceData))
    (expected : ExpectedState) : Verdict :=
  let github_snapshot := snapshotFor evidence_by_source "github"
  let cicd_snapshot := snapshotFor evidence_by_source "cicd"
  let issues := cc81Issues expected github_snapshot cicd_snapshot
  if issues = [] then
    { status := .pass_
      severity := control.severity
      remediation := "No action required."
      details :=
        { expected := some expected
          actual := some
            { pr_reviews_required := some (cc81ActualPrReviews github_snapshot)
              production_deploy_approvals_required :=
                some (cc81ActualDeployApprovals github_snapshot cicd_snapshot) } } }
  else
    { status := .fail
      severity := control.severity
      remediation := cc81_remediation
      details :=
        { issues := issues
          expected := some expected
          actual := some
            { pr_reviews_required := some (cc81ActualPrReviews github_snapshot)
              production_deploy_approvals_required :=
                some (cc81ActualDeployApprovals github_snapshot cicd_snapshot)
              branch_protection := some (mainProtection github_snapshot) } } }

/-- Function `evaluate_control` from `evaluator/evaluate.py`: dispatch by control id,
with the unknown-control FAIL fallback. -/
def evaluate_control (control : Control)
    (evidence_by_source : List (String × EvidenceData)) : Verdict :=
  let expected := control.expected_state
  let control_id := control.control_id
  if control_id == "CC6.1" then
    evaluate_cc6_1 control evidence_by_source expected
  else if control_id == "CC7.2" then
    evaluate_cc7_2 control evidence_by_source expected
  else if control_id == "CC8.1" then
    evaluate_cc8_1 control evidence_by_source expected
  else
    { status := .fail
      severity := control.severity
      remediation := "Unknown control " ++ control_id ++ ". Implement evaluator logic."
      details := { error := some "unknown_control" } }

/-! ## Collectors (`collectors/github.py`, `collectors/iam.py`,
`collectors/logging.py`) — deterministic mocks, with the `SIMULATE_DRIFT`
environment switch made an explicit parameter. -/

/-- Mock `collect_iam_evidence`: passing IAM state, or the drifted (MFA policy
disabled) state for CC6.1 when drift simulation is on. -/
def collect_iam_evidence (simulate_drift : Bool) (control_id : String)
    (collected_at : Nat) : EvidenceData :=
  if simulate_drift && control_id == "CC6.1" then
    { collected_at := collected_at
      source_system := "cloud_iam"
      raw_snapshot :=
        { mfa_required_for_privileged_users := some false
          admin_access_restricted := some true
          admin_users_without_mfa := some 2 } }
  else
    { collected_at := collected_at
      source_system := "cloud_iam"
      raw_snapshot :=
        { mfa_required_for_privileged_users := some true
          admin_access_restricted := some true
          admin_users_without_mfa := some 0 } }

/-- Mock `collect_github_evidence`: fixed passing branch-protection state. -/
def collect_github_evidence (_control_id : String) (collected_at : Nat) : EvidenceData :=
  { collected_at := collected_at
    source_system := "github"
    raw_snapshot :=
      { branch_protection_main := some
          { enabled := some true
            required_approving_review_count := some 2
            dismiss_stale_reviews := some true
            require_code_owner_reviews := some true
            enforce_admins := some true }
        branch_protection_master := some
          { enabled := some true
            required_approving_review_count := some 2
            dismiss_stale_reviews := some true
            require_code_owner_reviews := some true
            enforce_admins := some true }
        pr_reviews_required := some true
        production_deploy_approvals_required := some true } }

/-- Mock `collect_logging_evidence`: fixed passing logging state. -/
def collect_logging_evidence (_control_id : String) (collected_at : Nat) : EvidenceData :=
  { collected_at := collected_at
    source_system := "cicd"
    raw_snapshot :=
      { centralized_logging_enabled := some true
        log_retention_days := some 90 } }

/-! ## Orchestrator (`scripts/run_checks.py`) -/

/-- Function `_collect_evidence_for_source`: route to a collector by source-system
identifier, or synthesize an error-flagged snapshot for an unknown source. -/
def collect_evidence_for_source (simulate_drift : Bool) (control_id : String)
    (source_system : String) (collected_at : Nat) : EvidenceData :=
  if source_system == "github" then
    collect_github_evidence control_id collected_at
  else if source_system == "cloud_iam" then
    collect_iam_evidence simulate_drift control_id collected_at
  else if source_system == "cicd" then
    collect_logging_evidence control_id collected_at
  else
    { collected_at := collected_at
      source_system := source_system
      raw_snapshot := { error := some ("Unknown source system: " ++ source_system) } }

/-- The `evidence_by_source` association built by the per-source loop of
`run_checks_service`: one `(source, collector output)` pair per declared
evidence source. -/
def collectedBySource (simulate_drift : Bool) (control : Control) (run_at : Nat) :
    List (String × EvidenceData) :=
  control.evidence_sources.map
    (fun src => (src, collect_evidence_for_source simulate_drift control.control_id src run_at))

/-- The `Evidence` rows created (and flushed, acquiring consecutive
surrogate ids) by the per-source loop. -/
def evidenceRowsFor (next_id : Nat) (control_id : String) (run_at : Nat) :
    List (String × EvidenceData) → List EvidenceRow
  | [] => []
  | (src, ev) :: rest =>
    { id := next_id
      control_id := control_id
      source_system := src
      collected_at := run_at
      raw_snapshot := ev.raw_snapshot } :: evidenceRowsFor (next_id + 1) control_id run_at rest

/-- The `prev_eval` query of `run_checks_service`:
`select(Evaluation).where(control_id).order_by(desc(evaluated_at)).limit(1)`.
Note there is no filter on `evaluated_at` relative to the current run time.
(Ties on `evaluated_at` cannot occur under the table's
`(control_id, evaluated_at)` uniqueness constraint.) -/
def latestEval (evals : List EvaluationRow) (control_id : String) : Option EvaluationRow :=
  (evals.filter (fun e => e.control_id == control_id)).foldl
    (fun acc e =>
      match acc with
      | none => some e
      | some a => if e.evaluated_at > a.evaluated_at then some e else some a)
    none

/-- The spec's prior-evaluation lookup: most recent Evaluation for the
control with `evaluated_at` strictly before the current run time. -/
def mostRecentBefore (evals : List EvaluationRow) (control_id : String) (t : Nat) :
    Option EvaluationRow :=
  latestEval (evals.filter (fun e => e.evaluated_at < t)) control_id

/-- The `drifted` boolean of `run_checks_service`:
`prev_eval is not None and prev_eval.status == PASS and current == FAIL`. -/
def driftDecision (prev_eval : Option EvaluationRow) (current_status : EvalStatus) : Bool :=
  match prev_eval with
  | some p => p.status == EvalStatus.pass_ && current_status == EvalStatus.fail
  | none => false

/-- The body of the per-control loop of `run_checks_service` (steps 2a-2g of
its docstring): collect and persist evidence, evaluate, look up the previous
evaluation, persist the evaluation (skipped, along with pass/fail counting
and alerting, when there is no evidence row — the
`primary_evidence_id is None: continue` branch), track pass/fail, and create
an alert on high-severity PASS to FAIL drift. -/
def process_control (simulate_drift : Bool) (run_at : Nat) (state : DB × Summary)
    (control : Control) : DB × Summary :=
  let db0 := state.1
  let s0 := state.2
  let s1 := { s0 with controls_processed := s0.controls_processed + 1 }
  let collected := collectedBySource simulate_drift control run_at
  let evidence_rows := evidenceRowsFor db0.next_id control.control_id run_at collected
  let db1 := { db0 with
    evidence := db0.evidence ++ evidence_rows
    next_id := db0.next_id + evidence_rows.length }
  let s2 := { s1 with evidence_collected := s1.evidence_collected + evidence_rows.length }
  let eval_result := evaluate_control control collected
  let prev_eval := latestEval db1.evaluations control.control_id
  match evidence_rows.head? with
  | none => (db1, s2)
  | some first_row =>
    let evaluation : EvaluationRow :=
      { control_id := control.control_id
        evidence_id := first_row.id
        evaluated_at := run_at
        status := eval_result.status
        severity := eval_result.severity
        remediation := eval_result.remediation
        details := eval_result.details }
    let db2 := { db1 with evaluations := db1.evaluations ++ [evaluation] }
    let s3 := { s2 with evaluations_created := s2.evaluations_created + 1 }
    let s4 :=
      if eval_result.status == EvalStatus.pass_ then
        { s3 with controls_passed := s3.controls_passed + 1 }
      else
        { s3 with
          controls_failed := s3.controls_failed + 1
          failed_controls := s3.failed_controls ++
            [{ control_id := control.control_id
               name := control.name
               severity := eval_result.severity.value
               remediation := eval_result.remediation }] }
    let drifted := driftDecision prev_eval eval_result.status
    if eval_result.severity.value == "high" && drifted then
      ({ db2 with alerts := db2.alerts ++
          [{ control_id := control.control_id
             severity := eval_result.severity
             message := "Control " ++ control.control_id ++ " (" ++ control.name ++
               ") failed after previously passing"
             remediation := eval_result.remediation }] },
       { s4 with alerts_created := s4.alerts_created + 1 })
    else
      (db2, s4)

/-- The zero-initialized summary of `run_checks_service`. -/
def init_summary (run_at : Nat) : Summary :=
  { run_at := run_at
    controls_processed := 0
    controls_passed := 0
    controls_failed := 0
    evidence_collected := 0
    evaluations_created := 0
    alerts_created := 0
    failed_controls := [] }

/-- Function `run_checks_service(db, run_at)`: one check run over the refreshed
control registry.  The registry refresh (`upsert_controls` over the YAML
directory) supplies `controls`; the YAML control definitions are file input,
so the refreshed list is a parameter here and the upsert step itself is
modelled separately below. -/
def run_checks_service (simulate_drift : Bool) (controls : List Control) (db : DB)
    (run_at : Nat) : DB × Summary :=
  controls.foldl (process_control simulate_drift run_at) (db, init_summary run_at)

/-! ## Registry upsert (`controls/loader.py`) -/

/-- A normalized control definition as produced by `_normalize_control`
(the dict handed to the upsert step). -/
structure ControlDef where
  control_id : String
  name : String
  risk : String
  expected_state : ExpectedState
  evidence_sources : List String
  severity : Severity
  check_frequency : String
deriving DecidableEq, Repr

/-- A `Control` row in storage; `id` is the surrogate uuid primary key. -/
structure ControlRow where
  id : Nat
  control_id : String
  name : String
  risk : String
  expected_state : ExpectedState
  evidence_sources : List String
  severity : Severity
  check_frequency : String
deriving DecidableEq, Repr

/-- The update branch of `upsert_controls`: `setattr` for every field of the
definition except `control_id` (the surrogate `id` and `created_at` are not
in the dict and stay untouched). -/
def applyControlUpdate (row : ControlRow) (c : ControlDef) : ControlRow :=
  { row with
    name := c.name
    risk := c.risk
    expected_state := c.expected_state
    evidence_sources := c.evidence_sources
    severity := c.severity
    check_frequency := c.check_frequency }

/-- A fresh `Control` row built from a definition (the insert branch). -/
def newControlRow (id : Nat) (c : ControlDef) : ControlRow :=
  { id := id
    control_id := c.control_id
    name := c.name
    risk := c.risk
    expected_state := c.expected_state
    evidence_sources := c.evidence_sources
    severity := c.severity
    check_frequency := c.check_frequency }

/-- One iteration of the `upsert_controls` loop: update the existing row
with the definition's `control_id` if there is one, else insert a new row.
The state carries the table and the surrogate-id counter. -/
def upsert_control_def (state : List ControlRow × Nat) (c : ControlDef) :
    List ControlRow × Nat :=
  let table := state.1
  let next_id := state.2
  if table.any (fun r => r.control_id == c.control_id) then
    (table.map (fun r => if r.control_id == c.control_id then applyControlUpdate r c else r),
     next_id)
  else
    (table ++ [newControlRow next_id c], next_id + 1)

/-- Function `upsert_controls`: fold the loop over the loaded definitions. -/
def upsert_controls (state : List ControlRow × Nat) (defs : List ControlDef) :
    List ControlRow × Nat :=
  defs.foldl upsert_control_def state

/-! ## Evidence insert path and the `uq_evidence_snapshot` constraint
(`db/models.py`).  `session.add` buffers unconditionally; the database
enforces the unique constraint when the row is flushed.  `insert_evidence`
models add-and-flush of one row against the stored table: the flush fails
on a `(control_id, source_system, collected_at)` duplicate.  There is no
update path for Evidence anywhere in the source. -/

/-- Two Evidence rows agree on the `uq_evidence_snapshot` key columns. -/
def sameTriple (a b : EvidenceRow) : Bool :=
  a.control_id == b.control_id && a.source_system == b.source_system &&
    a.collected_at == b.collected_at

/-- Insert-and-flush one Evidence row: rejected when a stored row already
has the same `(control_id, source_system, collected_at)` triple. -/
def insert_evidence (rows : List EvidenceRow) (r : EvidenceRow) :
    Except String (List EvidenceRow) :=
  if rows.any (fun e => sameTriple e r) then
    Except.error "uq_evidence_snapshot"
  else
    Except.ok (rows ++ [r])

/-- The uniqueness invariant: no two stored Evidence rows share the
`(control_id, source_system, collected_at)` triple. -/
def evidence_triple_unique (rows : List EvidenceRow) : Prop :=
  List.Pairwise (fun a b => sameTriple a b = false) rows

/-! ## Helper lemmas -/

/-- The alert row created by the drift branch of the per-control loop. -/
def alertRowFor (c : Control) (v : Verdict) : AlertRow :=
  { control_id := c.control_id
    severity := v.severity
    message := "Control " ++ c.control_id ++ " (" ++ c.name ++
      ") failed after previously passing"
    remediation := v.remediation }

/-- The failed-controls summary entry for a failing control. -/
def failedEntryFor (c : Control) (v : Verdict) : FailedEntry :=
  { control_id := c.control_id
    name := c.name
    severity := v.severity.value
    remediation := v.remediation }

/-- Every branch of the evaluator copies the control's severity into the
verdict. -/
lemma evaluate_control_severity (c : Control) (e : List (String × EvidenceData)) :
    (evaluate_control c e).severity = c.severity := by
  unfold evaluate_control evaluate_cc6_1 evaluate_cc7_2 evaluate_cc8_1
  dsimp only
  repeat' split
  all_goals rfl

/-- The drift boolean holds exactly when the previous evaluation exists with
status PASS and the current status is FAIL. -/
lemma driftDecision_iff (pe : Option EvaluationRow) (st : EvalStatus) :
    driftDecision pe st = true ↔
      st = EvalStatus.fail ∧ ∃ p, pe = some p ∧ p.status = EvalStatus.pass_ := by
  cases pe with
  | none => simp [driftDecision]
  | some p =>
    simp only [driftDecision, Bool.and_eq_true, beq_iff_eq, Option.some.injEq]
    constructor
    · rintro ⟨h1, h2⟩
      exact ⟨h2, p, rfl, h1⟩
    · rintro ⟨h2, q, hq, h1⟩
      exact ⟨hq ▸ h1, h2⟩

/-- Comparing `severity.value == "high"` decides `severity = high`. -/
lemma severity_value_high_iff (s : Severity) :
    (s.value == "high") = true ↔ s = Severity.high := by
  cases s <;> simp [Severity.value]

/-- For a control with no evidence sources, the per-control loop only bumps
`controls_processed`: the `continue` branch skips the Evaluation row, the
pass/fail counters and the drift check. -/
lemma process_control_nil_spec (sd : Bool) (t : Nat) (db : DB) (s : Summary) (c : Control)
    (h : c.evidence_sources = []) :
    process_control sd t (db, s) c =
      (db, { s with controls_processed := s.controls_processed + 1 }) := by
  simp [process_control, collectedBySource, h, evidenceRowsFor]

/-- Full characterization of the per-control loop for a control with at
least one declared evidence source. -/
lemma process_control_cons_spec (sd : Bool) (t : Nat) (db : DB) (s : Summary) (c : Control)
    (h : c.evidence_sources ≠ []) :
    process_control sd t (db, s) c =
      (let v := evaluate_control c (collectedBySource sd c t)
       let rows := evidenceRowsFor db.next_id c.control_id t (collectedBySource sd c t)
       let alerted := v.severity.value == "high" &&
         driftDecision (latestEval db.evaluations c.control_id) v.status
       ({ next_id := db.next_id + rows.length
          evidence := db.evidence ++ rows
          evaluations := db.evaluations ++
            [{ control_id := c.control_id
               evidence_id := db.next_id
               evaluated_at := t
               status := v.status
               severity := v.severity
               remediation := v.remediation
               details := v.details }]
          alerts := if alerted then db.alerts ++ [alertRowFor c v] else db.alerts },
        { run_at := s.run_at
          controls_processed := s.controls_processed + 1
          controls_passed :=
            if v.status == EvalStatus.pass_ then s.controls_passed + 1 else s.controls_passed
          controls_failed :=
            if v.status == EvalStatus.pass_ then s.controls_failed else s.controls_failed + 1
          evidence_collected := s.evidence_collected + rows.length
          evaluations_created := s.evaluations_created + 1
          alerts_created := if alerted then s.alerts_created + 1 else s.alerts_created
          failed_controls :=
            if v.status == EvalStatus.pass_ then s.failed_controls
            else s.failed_controls ++ [failedEntryFor c v] })) := by
  obtain ⟨src, rest, hsrc⟩ := List.exists_cons_of_ne_nil h
  simp only [process_control]
  split
  case h_1 heq =>
    exfalso
    rw [collectedBySource, hsrc] at heq
    simp [evidenceRowsFor] at heq
  case h_2 fr heq =>
    rw [collectedBySource, hsrc] at heq
    simp only [List.map_cons, evidenceRowsFor, List.head?_cons, Option.some.injEq] at heq
    by_cases h1 : ((evaluate_control c (collectedBySource sd c t)).status ==
        EvalStatus.pass_) = true
    · by_cases h2 : ((evaluate_control c (collectedBySource sd c t)).severity.value == "high" &&
          driftDecision (latestEval db.evaluations c.control_id)
            (evaluate_control c (collectedBySource sd c t)).status) = true
      all_goals simp [h1, h2, ← heq, alertRowFor, failedEntryFor]
    · by_cases h2 : ((evaluate_control c (collectedBySource sd c t)).severity.value == "high" &&
          driftDecision (latestEval db.evaluations c.control_id)
            (evaluate_control c (collectedBySource sd c t)).status) = true
      all_goals simp [h1, h2, ← heq, alertRowFor, failedEntryFor]

/-- When every stored evaluation of the control predates the run, the
unfiltered most-recent lookup used by the code coincides with the spec's
strictly-before lookup. -/
lemma latestEval_eq_mostRecentBefore (evals : List EvaluationRow) (cid : String) (t : Nat)
    (h : ∀ e ∈ evals, e.control_id = cid → e.evaluated_at < t) :
    mostRecentBefore evals cid t = latestEval evals cid := by
  unfold mostRecentBefore latestEval
  congr 1
  induction evals with
  | nil => rfl
  | cons e l ih =>
    have hl : ∀ x ∈ l, x.control_id = cid → x.evaluated_at < t :=
      fun x hx => h x (List.mem_cons_of_mem _ hx)
    by_cases hcid : (e.control_id == cid) = true
    · have hlt : e.evaluated_at < t := h e (List.mem_cons_self _ _) (by simpa using hcid)
      simp [List.filter_cons, hcid, hlt, ih hl]
    · by_cases hlt : e.evaluated_at < t
      · simp [List.filter_cons, hcid, hlt, ih hl]
      · simp [List.filter_cons, hcid, hlt, ih hl]

/-- Membership description of the evidence rows written for a control. -/
lemma evidenceRowsFor_members (cid : String) (t : Nat) :
    ∀ (l : List (String × EvidenceData)) (n : Nat) (e : EvidenceRow),
      e ∈ evidenceRowsFor n cid t l →
      ∃ p ∈ l, e.control_id = cid ∧ e.collected_at = t ∧ e.source_system = p.1 ∧
        e.raw_snapshot = p.2.raw_snapshot := by
  intro l
  induction l with
  | nil =>
    intro n e he
    simp [evidenceRowsFor] at he
  | cons p rest ih =>
    intro n e he
    obtain ⟨s, ev⟩ := p
    simp only [evidenceRowsFor, List.mem_cons] at he
    rcases he with rfl | he
    · exact ⟨(s, ev), List.mem_cons_self _ _, rfl, rfl, rfl, rfl⟩
    · obtain ⟨q, hq, hrest⟩ := ih (n + 1) e he
      exact ⟨q, List.mem_cons_of_mem _ hq, hrest⟩

/-- The number of evidence rows written for a given source system equals the
number of times the control declares that source. -/
lemma evidenceRowsFor_filter_count (cid : String) (t : Nat) (f : String → EvidenceData)
    (src : String) :
    ∀ (srcs : List String) (n : Nat),
      ((evidenceRowsFor n cid t (srcs.map (fun s => (s, f s)))).filter
        (fun e => e.control_id == cid && e.source_system == src &&
          e.collected_at == t)).length = srcs.count src := by
  intro srcs
  induction srcs with
  | nil => intro n; rfl
  | cons s rest ih =>
    intro n
    simp only [List.map_cons, evidenceRowsFor, List.filter_cons]
    by_cases hs : (s == src) = true
    · simp [hs, ih (n + 1), List.count_cons]
    · simp [hs, ih (n + 1), List.count_cons]

/-- The unknown-source fallback snapshot of `_collect_evidence_for_source`. -/
lemma collect_evidence_for_source_unknown (sd : Bool) (cid : String) (src : String) (t : Nat)
    (h1 : src ≠ "github") (h2 : src ≠ "cloud_iam") (h3 : src ≠ "cicd") :
    collect_evidence_for_source sd cid src t =
      { collected_at := t
        source_system := src
        raw_snapshot := { error := some ("Unknown source system: " ++ src) } } := by
  simp [collect_evidence_for_source, h1, h2, h3]

/-- A positive (or defaulted) missing-MFA count always contributes its issue
to the CC6.1 issue list, regardless of the expected state. -/
lemma cc61Issues_pos (expected : ExpectedState) (snapshot : RawSnapshot)
    (h : snapshot.admin_users_without_mfa.getD 999 > 0) :
    cc61Issues expected snapshot ≠ [] ∧
      (toString (snapshot.admin_users_without_mfa.getD 999) ++ " admin user(s) without MFA")
        ∈ cc61Issues expected snapshot := by
  unfold cc61Issues
  dsimp only
  rw [if_pos h]
  constructor
  · intro habs
    simp [List.append_eq_nil] at habs
  · simp [List.mem_append]

/-- The update branch of the upsert never touches the row's `control_id`. -/
lemma upd_control_id (c : ControlDef) (r : ControlRow) :
    (if r.control_id == c.control_id then applyControlUpdate r c else r).control_id =
      r.control_id := by
  split <;> rfl

/-- The update branch of the upsert never touches the row's surrogate id. -/
lemma upd_id (c : ControlDef) (r : ControlRow) :
    (if r.control_id == c.control_id then applyControlUpdate r c else r).id = r.id := by
  split <;> rfl

/-- Updating every matching row preserves the count of rows matching the
definition's `control_id`. -/
lemma filter_length_map_upd (c : ControlDef) :
    ∀ table : List ControlRow,
      ((table.map (fun r => if r.control_id == c.control_id then applyControlUpdate r c
          else r)).filter (fun r => r.control_id == c.control_id)).length =
        (table.filter (fun r => r.control_id == c.control_id)).length := by
  intro table
  induction table with
  | nil => rfl
  | cons r l ih =>
    simp only [List.map_cons, List.filter_cons, upd_control_id]
    by_cases hr : (r.control_id == c.control_id) = true
    · rw [if_pos hr, if_pos hr, if_pos hr, List.length_cons, List.length_cons, ih]
    · rw [if_neg hr, if_neg hr]
      exact ih

/-- With pairwise-distinct `control_id`s, a matched lookup key matches
exactly one row. -/
lemma filter_length_one_of_nodup (k : String) :
    ∀ table : List ControlRow,
      (table.map (fun r => r.control_id)).Nodup →
      table.any (fun r => r.control_id == k) = true →
      (table.filter (fun r => r.control_id == k)).length = 1 := by
  intro table
  induction table with
  | nil => intro _ hany; simp at hany
  | cons r l ih =>
    intro hnd hany
    simp only [List.map_cons, List.nodup_cons] at hnd
    simp only [List.any_cons, Bool.or_eq_true] at hany
    simp only [List.filter_cons]
    by_cases hr : (r.control_id == k) = true
    · have hk : r.control_id = k := by simpa using hr
      have hnil : l.filter (fun x => x.control_id == k) = [] := by
        rw [List.filter_eq_nil_iff]
        intro x hx
        have : x.control_id ≠ r.control_id := by
          intro hxr
          exact hnd.1 (hxr ▸ List.mem_map_of_mem (fun r => r.control_id) hx)
        simp [hk ▸ this]
      simp [hr, hnil]
    · have hany' : l.any (fun x => x.control_id == k) = true := by
        rcases hany with h | h
        · exact absurd h hr
        · exact h
      simp [hr, ih hnd.2 hany']

/-! ## Concrete fixtures used by the theorems below -/

/-- A high-severity CC6.1 control as registered by the pipeline. -/
def cc61_control : Control :=
  { control_id := "CC6.1"
    name := "Logical Access Controls"
    risk := "Unauthorized access to production systems"
    expected_state :=
      { mfa_required_for_privileged_users := some true
        admin_access_restricted := some true }
    evidence_sources := ["cloud_iam"]
    severity := Severity.high }

/-- A CC7.2 control (cicd source, 90-day minimum retention). -/
def cc72_control : Control :=
  { control_id := "CC7.2"
    name := "Logging and Monitoring"
    risk := "Security incidents go undetected"
    expected_state :=
      { centralized_logging_enabled := some true
        log_retention_days_minimum := some 90 }
    evidence_sources := ["cicd"]
    severity := Severity.medium }

/-- A CC8.1 control (github and cicd sources). -/
def cc81_control : Control :=
  { control_id := "CC8.1"
    name := "Change Management"
    risk := "Unreviewed changes reach production"
    expected_state :=
      { pr_reviews_required := some true
        production_deploy_approvals_required := some true }
    evidence_sources := ["github", "cicd"]
    severity := Severity.high }

/-- CC6.1 with an empty evidence-source list. -/
def cc61_nosource : Control := { cc61_control with evidence_sources := [] }

/-- A control whose identifier no evaluator implements, with no sources. -/
def unknown_nosource : Control :=
  { control_id := "ZZ.9"
    name := "Mystery Control"
    expected_state := {}
    evidence_sources := []
    severity := Severity.medium }

/-- A control whose identifier no evaluator implements, with one source. -/
def unknown_with_source : Control :=
  { unknown_nosource with evidence_sources := ["github"], severity := Severity.high }

/-! ## Claims -/

/-- Claim C1. The claim asserts that a control with an empty
`evidence_sources` list still gets an Evaluation row for
`(control, current_time)` and is counted in `controls_passed` or
`controls_failed`.  The evaluator indeed handles the empty snapshot mapping
without crashing (first conjunct: it returns a FAIL verdict), but
`run_checks_service` then hits the `primary_evidence_id is None: continue`
branch: no Evaluation row is written and the control is counted in neither
`controls_passed` nor `controls_failed` — only in `controls_processed`.
This theorem evaluates the pipeline at the failing input. -/
theorem c1_zero_source_control_skips_evaluation :
    (evaluate_control cc61_nosource []).status = EvalStatus.fail ∧
    (run_checks_service false [cc61_nosource] emptyDB 0).2.controls_processed = 1 ∧
    (run_checks_service false [cc61_nosource] emptyDB 0).2.evaluations_created = 0 ∧
    (run_checks_service false [cc61_nosource] emptyDB 0).2.controls_passed = 0 ∧
    (run_checks_service false [cc61_nosource] emptyDB 0).2.controls_failed = 0 ∧
    (run_checks_service false [cc61_nosource] emptyDB 0).1.evaluations = [] := by
  decide

/-- A stored PASS evaluation whose timestamp (5) lies after the
counterexample run time (3). -/
def future_pass_eval : EvaluationRow :=
  { control_id := "CC6.1"
    evidence_id := 0
    evaluated_at := 5
    status := EvalStatus.pass_
    severity := Severity.high
    remediation := "No action required."
    details := {} }

/-- A store holding only the future-dated PASS evaluation. -/
def db_with_future_eval : DB := { next_id := 1, evaluations := [future_pass_eval] }

/-- Claim C3, counterexample. The claim asserts Evaluations with timestamps at
or after `current_time` are never used as the prior.  But the `prev_eval`
query has no strictly-before filter: running at time 3 against a store whose
only CC6.1 evaluation is a PASS dated 5 (so no Evaluation lies strictly
before the run), the pipeline still treats that future-dated PASS as the
prior and fires a drift alert. -/
theorem c3_no_strict_filter_counterexample :
    db_with_future_eval.evaluations.filter (fun e => decide (e.evaluated_at < 3)) = [] ∧
    mostRecentBefore db_with_future_eval.evaluations "CC6.1" 3 = none ∧
    latestEval db_with_future_eval.evaluations "CC6.1" = some future_pass_eval ∧
    (run_checks_service true [cc61_control] db_with_future_eval 3).1.alerts.length = 1 := by
  decide

/-- Claim C3, amended. The drift decision uses the control's most recent
Evaluation by timestamp over all stored Evaluations (no strictly-before
filter); when every stored Evaluation of the control lies strictly before
`current_time` — the normal forward-running case — this coincides with the
spec's most-recent-strictly-prior lookup. -/
theorem c3_prior_is_latest_overall (evals : List EvaluationRow) (cid : String) (t : Nat)
    (h : ∀ e ∈ evals, e.control_id = cid → e.evaluated_at < t) :
    mostRecentBefore evals cid t = latestEval evals cid ∧
    ∀ st : EvalStatus,
      driftDecision (latestEval evals cid) st = driftDecision (mostRecentBefore evals cid t) st := by
  have heq := latestEval_eq_mostRecentBefore evals cid t h
  exact ⟨heq, fun st => by rw [heq]⟩

/-- Witness for the amended C3 statement at a concrete store. -/
theorem c3_prior_is_latest_overall_witness :
    (mostRecentBefore [future_pass_eval] "CC6.1" 7 = latestEval [future_pass_eval] "CC6.1" ∧
      ∀ st : EvalStatus,
        driftDecision (latestEval [future_pass_eval] "CC6.1") st =
          driftDecision (mostRecentBefore [future_pass_eval] "CC6.1" 7) st) := by
  exact c3_prior_is_latest_overall [future_pass_eval] "CC6.1" 7 (by decide)

/-- Claim C4, counterexample. The claim counts every unknown-identifier
control in both `controls_processed` and `controls_failed`.  An unknown
control with an empty source list is processed but — through the same
`continue` branch as C1 — never counted in `controls_failed`. -/
theorem c4_unknown_zero_source_counterexample :
    unknown_nosource.control_id ≠ "CC6.1" ∧
    unknown_nosource.control_id ≠ "CC7.2" ∧
    unknown_nosource.control_id ≠ "CC8.1" ∧
    (run_checks_service false [unknown_nosource] emptyDB 0).2.controls_processed = 1 ∧
    (run_checks_service false [unknown_nosource] emptyDB 0).2.controls_failed = 0 := by
  decide

/-- Claim C4, amended. For every control whose identifier is none of CC6.1,
CC7.2, CC8.1, `evaluate_control` returns (never raises) the FAIL verdict
with the `"unknown_control"` error detail and the control's severity; and
provided the control declares at least one evidence source, a run
containing it still completes, counting it in both `controls_processed` and
`controls_failed` and writing its Evaluation. -/
theorem c4_unknown_control_resilience (c : Control)
    (h1 : c.control_id ≠ "CC6.1") (h2 : c.control_id ≠ "CC7.2")
    (h3 : c.control_id ≠ "CC8.1") :
    (∀ ebs : List (String × EvidenceData),
      evaluate_control c ebs =
        { status := EvalStatus.fail
          severity := c.severity
          remediation := "Unknown control " ++ c.control_id ++ ". Implement evaluator logic."
          details := { error := some "unknown_control" } }) ∧
    (∀ (sd : Bool) (t : Nat) (db : DB) (s : Summary), c.evidence_sources ≠ [] →
      (process_control sd t (db, s) c).2.controls_processed = s.controls_processed + 1 ∧
      (process_control sd t (db, s) c).2.controls_failed = s.controls_failed + 1 ∧
      (process_control sd t (db, s) c).1.evaluations.length = db.evaluations.length + 1) := by
  have hv : ∀ ebs : List (String × EvidenceData),
      evaluate_control c ebs =
        { status := EvalStatus.fail
          severity := c.severity
          remediation := "Unknown control " ++ c.control_id ++ ". Implement evaluator logic."
          details := { error := some "unknown_control" } } := by
    intro ebs
    simp [evaluate_control, h1, h2, h3]
  refine ⟨hv, ?_⟩
  intro sd t db s hne
  rw [process_control_cons_spec sd t db s c hne]
  have hst : ((evaluate_control c (collectedBySource sd c t)).status ==
      EvalStatus.pass_) = false := by
    rw [hv (collectedBySource sd c t)]
    rfl
  refine ⟨?_, ?_, ?_⟩
  · rfl
  · dsimp only
    rw [hst]
    simp
  · dsimp only
    simp

/-- Witness for the amended C4 statement at a concrete unknown control. -/
theorem c4_unknown_control_resilience_witness :
    evaluate_control unknown_with_source [] =
      { status := EvalStatus.fail
        severity := Severity.high
        remediation := "Unknown control ZZ.9. Implement evaluator logic."
        details := { error := some "unknown_control" } } ∧
    (process_control false 0 (emptyDB, init_summary 0) unknown_with_source).2.controls_processed = 1 ∧
    (process_control false 0 (emptyDB, init_summary 0) unknown_with_source).2.controls_failed = 1 ∧
    (process_control false 0 (emptyDB, init_summary 0) unknown_with_source).1.evaluations.length = 1 := by
  have h := c4_unknown_control_resilience unknown_with_source
    (by decide) (by decide) (by decide)
  have h2 := h.2 false 0 emptyDB (init_summary 0) (by decide)
  exact ⟨by rw [h.1 []]; rfl, h2.1, h2.2.1, h2.2.2⟩

/-- CC6.1 with an empty expected-state mapping. -/
def cc61_empty_expected : Control := { cc61_control with expected_state := {} }

/-- An IAM snapshot explicitly reporting a negative missing-MFA count. -/
def negative_iam_ebs : List (String × EvidenceData) :=
  [("cloud_iam",
    { collected_at := 0
      source_system := "cloud_iam"
      raw_snapshot := { admin_users_without_mfa := some (-1) } })]

/-- Claim C10, counterexample. The claim says CC6.1 can never PASS unless the
IAM snapshot explicitly reports `admin_users_without_mfa` equal to 0.  A
snapshot reporting the (physically meaningless, but representable) value -1
also passes: the guard is `admin_users_without_mfa > 0`, not `≠ 0`. -/
theorem c10_negative_count_counterexample :
    (evaluate_control cc61_empty_expected negative_iam_ebs).status = EvalStatus.pass_ ∧
    (snapshotFor negative_iam_ebs "cloud_iam").admin_users_without_mfa = some (-1) := by
  decide

/-- Claim C10, amended. For CC6.1, a missing `cloud_iam` entry or a snapshot
lacking `admin_users_without_mfa` defaults the count to 999 and forces a
FAIL verdict carrying the issue `"999 admin user(s) without MFA"`; the
count guard fires independently of the expected state, so CC6.1 can PASS
only when the IAM snapshot explicitly reports `admin_users_without_mfa` as
a value at most 0 (0 for any genuine count). -/
theorem c10_missing_iam_count_defaults (c : Control)
    (ebs : List (String × EvidenceData)) (hid : c.control_id = "CC6.1") :
    ((snapshotFor ebs "cloud_iam").admin_users_without_mfa = none →
      (evaluate_control c ebs).status = EvalStatus.fail ∧
      "999 admin user(s) without MFA" ∈ (evaluate_control c ebs).details.issues) ∧
    ((evaluate_control c ebs).status = EvalStatus.pass_ →
      ∃ k : Int, (snapshotFor ebs "cloud_iam").admin_users_without_mfa = some k ∧ k ≤ 0) := by
  have hev : evaluate_control c ebs = evaluate_cc6_1 c ebs c.expected_state := by
    simp [evaluate_control, hid]
  constructor
  · intro hnone
    have hpos : (snapshotFor ebs "cloud_iam").admin_users_without_mfa.getD 999 > 0 := by
      rw [hnone]
      decide
    have hiss := cc61Issues_pos c.expected_state (snapshotFor ebs "cloud_iam") hpos
    have hmem : "999 admin user(s) without MFA" ∈
        cc61Issues c.expected_state (snapshotFor ebs "cloud_iam") := by
      have := hiss.2
      rw [hnone] at this
      exact this
    constructor
    · rw [hev]
      unfold evaluate_cc6_1
      dsimp only
      rw [if_neg hiss.1]
    · rw [hev]
      unfold evaluate_cc6_1
      dsimp only
      rw [if_neg hiss.1]
      exact hmem
  · intro hpass
    by_cases hi : cc61Issues c.expected_state (snapshotFor ebs "cloud_iam") = []
    · have h3 : ¬ ((snapshotFor ebs "cloud_iam").admin_users_without_mfa.getD 999 > 0) := by
        intro hpos
        exact (cc61Issues_pos c.expected_state (snapshotFor ebs "cloud_iam") hpos).1 hi
      cases hfield : (snapshotFor ebs "cloud_iam").admin_users_without_mfa with
      | none =>
        exfalso
        apply h3
        rw [hfield]
        decide
      | some k =>
        refine ⟨k, rfl, ?_⟩
        rw [hfield] at h3
        simpa using h3
    · exfalso
      rw [hev] at hpass
      unfold evaluate_cc6_1 at hpass
      dsimp only at hpass
      rw [if_neg hi] at hpass
      simp at hpass

/-- Witness for the amended C10 statement: empty snapshot mapping. -/
theorem c10_missing_iam_count_defaults_witness :
    (evaluate_control cc61_control []).status = EvalStatus.fail ∧
    "999 admin user(s) without MFA" ∈ (evaluate_control cc61_control []).details.issues := by
  have h := c10_missing_iam_count_defaults cc61_control [] rfl
  exact h.1 rfl

/-- Claim C6. For each implemented control and every snapshot mapping, the
verdict is FAIL exactly when the collected issue list is non-empty, the
PASS remediation is exactly `"No action required."`, and the FAIL
remediation is the control's fixed numbered action list, a function of the
control alone (for CC7.2, of its declared minimum retention), independent
of which issues fired. -/
theorem c6_fail_iff_issues_fixed_remediation (c : Control)
    (ebs : List (String × EvidenceData)) :
    (c.control_id = "CC6.1" →
      (((evaluate_control c ebs).status = EvalStatus.fail ↔
          cc61Issues c.expected_state (snapshotFor ebs "cloud_iam") ≠ []) ∧
        ((evaluate_control c ebs).status = EvalStatus.pass_ →
          (evaluate_control c ebs).remediation = "No action required.") ∧
        ((evaluate_control c ebs).status = EvalStatus.fail →
          (evaluate_control c ebs).remediation = cc61_remediation))) ∧
    (c.control_id = "CC7.2" →
      (((evaluate_control c ebs).status = EvalStatus.fail ↔
          cc72Issues c.expected_state (snapshotFor ebs "cicd") ≠ []) ∧
        ((evaluate_control c ebs).status = EvalStatus.pass_ →
          (evaluate_control c ebs).remediation = "No action required.") ∧
        ((evaluate_control c ebs).status = EvalStatus.fail →
          (evaluate_control c ebs).remediation =
            cc72_remediation (c.expected_state.log_retention_days_minimum.getD 0)))) ∧
    (c.control_id = "CC8.1" →
      (((evaluate_control c ebs).status = EvalStatus.fail ↔
          cc81Issues c.expected_state (snapshotFor ebs "github")
            (snapshotFor ebs "cicd") ≠ []) ∧
        ((evaluate_control c ebs).status = EvalStatus.pass_ →
          (evaluate_control c ebs).remediation = "No action required.") ∧
        ((evaluate_control c ebs).status = EvalStatus.fail →
          (evaluate_control c ebs).remediation = cc81_remediation))) := by
  refine ⟨?_, ?_, ?_⟩
  · intro h
    have hev : evaluate_control c ebs = evaluate_cc6_1 c ebs c.expected_state := by
      simp [evaluate_control, h]
    rw [hev]
    unfold evaluate_cc6_1
    dsimp only
    by_cases hi : cc61Issues c.expected_state (snapshotFor ebs "cloud_iam") = []
    · rw [if_pos hi]
      simp [hi]
    · rw [if_neg hi]
      simp [hi]
  · intro h
    have hev : evaluate_control c ebs = evaluate_cc7_2 c ebs c.expected_state := by
      simp [evaluate_control, h]
    rw [hev]
    unfold evaluate_cc7_2
    dsimp only
    by_cases hi : cc72Issues c.expected_state (snapshotFor ebs "cicd") = []
    · rw [if_pos hi]
      simp [hi]
    · rw [if_neg hi]
      simp [hi]
  · intro h
    have hev : evaluate_control c ebs = evaluate_cc8_1 c ebs c.expected_state := by
      simp [evaluate_control, h]
    rw [hev]
    unfold evaluate_cc8_1
    dsimp only
    by_cases hi : cc81Issues c.expected_state (snapshotFor ebs "github")
        (snapshotFor ebs "cicd") = []
    · rw [if_pos hi]
      simp [hi]
    · rw [if_neg hi]
      simp [hi]

/-- Witness for C6 at the three registered controls over the empty snapshot
mapping. -/
theorem c6_fail_iff_issues_fixed_remediation_witness :
    (((evaluate_control cc61_control []).status = EvalStatus.fail ↔
        cc61Issues cc61_control.expected_state (snapshotFor [] "cloud_iam") ≠ []) ∧
      ((evaluate_control cc61_control []).status = EvalStatus.pass_ →
        (evaluate_control cc61_control []).remediation = "No action required.") ∧
      ((evaluate_control cc61_control []).status = EvalStatus.fail →
        (evaluate_control cc61_control []).remediation = cc61_remediation)) ∧
    (((evaluate_control cc72_control []).status = EvalStatus.fail ↔
        cc72Issues cc72_control.expected_state (snapshotFor [] "cicd") ≠ []) ∧
      ((evaluate_control cc72_control []).status = EvalStatus.pass_ →
        (evaluate_control cc72_control []).remediation = "No action required.") ∧
      ((evaluate_control cc72_control []).status = EvalStatus.fail →
        (evaluate_control cc72_control []).remediation =
          cc72_remediation (cc72_control.expected_state.log_retention_days_minimum.getD 0))) ∧
    (((evaluate_control cc81_control []).status = EvalStatus.fail ↔
        cc81Issues cc81_control.expected_state (snapshotFor [] "github")
          (snapshotFor [] "cicd") ≠ []) ∧
      ((evaluate_control cc81_control []).status = EvalStatus.pass_ →
        (evaluate_control cc81_control []).remediation = "No action required.") ∧
      ((evaluate_control cc81_control []).status = EvalStatus.fail →
        (evaluate_control cc81_control []).remediation = cc81_remediation)) := by
  exact ⟨(c6_fail_iff_issues_fixed_remediation cc61_control []).1 rfl,
    (c6_fail_iff_issues_fixed_remediation cc72_control []).2.1 rfl,
    (c6_fail_iff_issues_fixed_remediation cc81_control []).2.2 rfl⟩

/-- Claim C7. A control whose severity is low or medium never creates an
Alert, whatever the drift situation: the alert branch requires the verdict
severity (always copied from the control) to be high. -/
theorem c7_no_alert_for_non_high (sd : Bool) (t : Nat) (db : DB) (s : Summary) (c : Control)
    (h : c.severity = Severity.low ∨ c.severity = Severity.medium) :
    (process_control sd t (db, s) c).1.alerts = db.alerts ∧
    (process_control sd t (db, s) c).2.alerts_created = s.alerts_created := by
  have hval : ((evaluate_control c (collectedBySource sd c t)).severity.value == "high") =
      false := by
    rw [evaluate_control_severity]
    rcases h with h | h <;> rw [h] <;> rfl
  by_cases hne : c.evidence_sources = []
  · rw [process_control_nil_spec sd t db s c hne]
    exact ⟨rfl, rfl⟩
  · rw [process_control_cons_spec sd t db s c hne]
    dsimp only
    rw [hval]
    simp

/-- The CC6.1 control downgraded to low severity. -/
def low_cc61 : Control := { cc61_control with severity := Severity.low }

/-- A stored PASS evaluation for the low-severity control at time 0. -/
def prior_pass_low : EvaluationRow :=
  { control_id := "CC6.1"
    evidence_id := 0
    evaluated_at := 0
    status := EvalStatus.pass_
    severity := Severity.low
    remediation := "No action required."
    details := {} }

/-- A store holding the prior PASS of the low-severity control. -/
def db_prior_pass : DB := { next_id := 1, evaluations := [prior_pass_low] }

/-- Witness for C7: a low-severity CC6.1 drifting PASS to FAIL still
creates no alert. -/
theorem c7_no_alert_for_non_high_witness :
    ((process_control true 1 (db_prior_pass, init_summary 1) low_cc61).1.alerts =
      db_prior_pass.alerts ∧
    (process_control true 1 (db_prior_pass, init_summary 1) low_cc61).2.alerts_created =
      (init_summary 1).alerts_created) ∧
    (evaluate_control low_cc61 (collectedBySource true low_cc61 1)).status =
      EvalStatus.fail ∧
    driftDecision (latestEval db_prior_pass.evaluations "CC6.1")
      (evaluate_control low_cc61 (collectedBySource true low_cc61 1)).status = true := by
  refine ⟨?_, by decide, by decide⟩
  exact c7_no_alert_for_non_high true 1 db_prior_pass (init_summary 1) low_cc61 (Or.inl rfl)

/-- Claim C5. A control declaring an evidence source with no registered
collector still gets exactly one Evidence row for that
`(control, source, current_time)`, whose snapshot carries the
unknown-source error payload, and its Evaluation is still written: the run
is not aborted. -/
theorem c5_unknown_source_resilience (sd : Bool) (t : Nat) (db : DB) (s : Summary)
    (c : Control) (src : String)
    (h1 : src ≠ "github") (h2 : src ≠ "cloud_iam") (h3 : src ≠ "cicd")
    (hcount : c.evidence_sources.count src = 1) :
    (process_control sd t (db, s) c).1.evidence =
      db.evidence ++ evidenceRowsFor db.next_id c.control_id t (collectedBySource sd c t) ∧
    ((evidenceRowsFor db.next_id c.control_id t (collectedBySource sd c t)).filter
      (fun e => e.control_id == c.control_id && e.source_system == src &&
        e.collected_at == t)).length = 1 ∧
    (∀ e ∈ evidenceRowsFor db.next_id c.control_id t (collectedBySource sd c t),
      e.source_system = src →
        e.raw_snapshot = { error := some ("Unknown source system: " ++ src) }) ∧
    (process_control sd t (db, s) c).1.evaluations.length = db.evaluations.length + 1 := by
  have hmem : src ∈ c.evidence_sources := by
    apply List.count_pos_iff.mp
    omega
  have hne : c.evidence_sources ≠ [] := by
    intro h0
    rw [h0] at hmem
    simp at hmem
  rw [process_control_cons_spec sd t db s c hne]
  dsimp only
  refine ⟨rfl, ?_, ?_, by simp⟩
  · rw [collectedBySource]
    rw [evidenceRowsFor_filter_count c.control_id t
      (fun s0 => collect_evidence_for_source sd c.control_id s0 t) src]
    exact hcount
  · intro e he hsys
    rw [collectedBySource] at he
    obtain ⟨p, hp, hcid, hct, hsrc, hraw⟩ :=
      evidenceRowsFor_members c.control_id t _ db.next_id e he
    obtain ⟨s0, hs0, rfl⟩ := List.mem_map.mp hp
    have hs0src : s0 = src := by rw [← hsys, hsrc]
    subst hs0src
    rw [hraw, collect_evidence_for_source_unknown sd c.control_id s0 t h1 h2 h3]

/-- An unregistered control declaring only the unknown source "s3". -/
def s3_control : Control :=
  { control_id := "ZZ.9"
    name := "Mystery Control"
    expected_state := {}
    evidence_sources := ["s3"]
    severity := Severity.low }

/-- Witness for C5 at the concrete unknown source "s3". -/
theorem c5_unknown_source_resilience_witness :
    (process_control false 7 (emptyDB, init_summary 7) s3_control).1.evidence =
      emptyDB.evidence ++
        evidenceRowsFor emptyDB.next_id s3_control.control_id 7
          (collectedBySource false s3_control 7) ∧
    ((evidenceRowsFor emptyDB.next_id s3_control.control_id 7
        (collectedBySource false s3_control 7)).filter
      (fun e => e.control_id == s3_control.control_id && e.source_system == "s3" &&
        e.collected_at == 7)).length = 1 ∧
    (∀ e ∈ evidenceRowsFor emptyDB.next_id s3_control.control_id 7
        (collectedBySource false s3_control 7),
      e.source_system = "s3" →
        e.raw_snapshot = { error := some ("Unknown source system: " ++ "s3") }) ∧
    (process_control false 7 (emptyDB, init_summary 7) s3_control).1.evaluations.length =
      emptyDB.evaluations.length + 1 := by
  exact c5_unknown_source_resilience false 7 emptyDB (init_summary 7) s3_control "s3"
    (by decide) (by decide) (by decide) (by decide)

/-- The first run of the PASS, FAIL, FAIL sequence (drift simulation off). -/
def seq1_run1 : DB × Summary := run_checks_service false [cc61_control] emptyDB 0

/-- The second run of the PASS, FAIL, FAIL sequence (drift simulation on). -/
def seq1_run2 : DB × Summary := run_checks_service true [cc61_control] seq1_run1.1 1

/-- The third run of the PASS, FAIL, FAIL sequence (drift simulation on). -/
def seq1_run3 : DB × Summary := run_checks_service true [cc61_control] seq1_run2.1 2

/-- The first run of the FAIL, FAIL, PASS, FAIL sequence. -/
def seq2_run1 : DB × Summary := run_checks_service true [cc61_control] emptyDB 0

/-- The second run of the FAIL, FAIL, PASS, FAIL sequence. -/
def seq2_run2 : DB × Summary := run_checks_service true [cc61_control] seq2_run1.1 1

/-- The third run of the FAIL, FAIL, PASS, FAIL sequence. -/
def seq2_run3 : DB × Summary := run_checks_service false [cc61_control] seq2_run2.1 2

/-- The fourth run of the FAIL, FAIL, PASS, FAIL sequence. -/
def seq2_run4 : DB × Summary := run_checks_service true [cc61_control] seq2_run3.1 3

/-- Claim C2. For a high-severity control, one run creates an alert exactly
when its verdict is FAIL and the control's most recent prior Evaluation
(strictly before the run, which under forward-running timestamps is the
query's most recent overall) has status PASS.  Consequently PASS, FAIL,
FAIL creates exactly one alert at the first FAIL; FAIL, FAIL, PASS, FAIL
creates exactly one alert at the last FAIL; and a first-ever FAIL with no
prior Evaluation creates none. -/
theorem c2_edge_triggered_alerting :
    (∀ (sd : Bool) (db : DB) (s : Summary) (c : Control) (t : Nat),
      c.severity = Severity.high →
      c.evidence_sources ≠ [] →
      (∀ e ∈ db.evaluations, e.control_id = c.control_id → e.evaluated_at < t) →
      ((process_control sd t (db, s) c).1.alerts.length = db.alerts.length + 1 ↔
        (evaluate_control c (collectedBySource sd c t)).status = EvalStatus.fail ∧
          ∃ p, mostRecentBefore db.evaluations c.control_id t = some p ∧
            p.status = EvalStatus.pass_)) ∧
    (seq1_run1.2.alerts_created = 0 ∧ seq1_run2.2.alerts_created = 1 ∧
      seq1_run3.2.alerts_created = 0 ∧ seq1_run3.1.alerts.length = 1) ∧
    (seq2_run1.2.alerts_created = 0 ∧ seq2_run2.2.alerts_created = 0 ∧
      seq2_run3.2.alerts_created = 0 ∧ seq2_run4.2.alerts_created = 1 ∧
      seq2_run4.1.alerts.length = 1) ∧
    ((run_checks_service true [cc61_control] emptyDB 0).2.alerts_created = 0 ∧
      (run_checks_service true [cc61_control] emptyDB 0).1.alerts.length = 0) := by
  refine ⟨?_, by decide, by decide, by decide⟩
  intro sd db s c t hsev hne hprior
  rw [process_control_cons_spec sd t db s c hne]
  dsimp only
  have hval : ((evaluate_control c (collectedBySource sd c t)).severity.value == "high") =
      true := by
    rw [evaluate_control_severity, hsev]
    rfl
  rw [hval, latestEval_eq_mostRecentBefore db.evaluations c.control_id t hprior]
  simp only [Bool.true_and]
  by_cases hd : driftDecision (latestEval db.evaluations c.control_id)
      (evaluate_control c (collectedBySource sd c t)).status = true
  · rw [if_pos hd]
    simp only [List.length_append, List.length_cons, List.length_nil, Nat.zero_add]
    exact iff_of_true trivial ((driftDecision_iff _ _).mp hd)
  · rw [if_neg hd]
    exact iff_of_false (by omega) (fun hr => hd ((driftDecision_iff _ _).mpr hr))

/-- Witness for the universally quantified part of C2: the PASS to FAIL
transition of the sequence fixture fires the alert. -/
theorem c2_edge_triggered_alerting_witness :
    (process_control true 1 (seq1_run1.1, init_summary 1) cc61_control).1.alerts.length =
      seq1_run1.1.alerts.length + 1 ↔
      (evaluate_control cc61_control (collectedBySource true cc61_control 1)).status =
          EvalStatus.fail ∧
        ∃ p, mostRecentBefore seq1_run1.1.evaluations cc61_control.control_id 1 = some p ∧
          p.status = EvalStatus.pass_ := by
  exact c2_edge_triggered_alerting.1 true seq1_run1.1 (init_summary 1) cc61_control 1
    rfl (by decide) (by decide)

/-- Claim C8. The registry upsert is idempotent by control identifier: after
upserting a definition once, upserting it again leaves the table unchanged;
the table holds exactly one row with that `control_id`, whose fields
reflect the latest definition; and no pre-existing row's `control_id` (or
surrogate id) is ever changed. -/
theorem c8_upsert_idempotent_by_control_id (table : List ControlRow) (n : Nat)
    (c : ControlDef) (hnodup : (table.map (fun r => r.control_id)).Nodup) :
    (upsert_control_def (upsert_control_def (table, n) c) c).1 =
      (upsert_control_def (table, n) c).1 ∧
    ((upsert_control_def (table, n) c).1.filter
      (fun r => r.control_id == c.control_id)).length = 1 ∧
    (∀ r ∈ (upsert_control_def (table, n) c).1, r.control_id = c.control_id →
      (r.name = c.name ∧ r.risk = c.risk ∧ r.expected_state = c.expected_state ∧
       r.evidence_sources = c.evidence_sources ∧ r.severity = c.severity ∧
       r.check_frequency = c.check_frequency)) ∧
    (∀ r ∈ table, ∃ q ∈ (upsert_control_def (table, n) c).1,
      q.id = r.id ∧ q.control_id = r.control_id) := by
  by_cases hany : table.any (fun r => r.control_id == c.control_id) = true
  · have hpair : upsert_control_def (table, n) c =
        (table.map (fun r => if r.control_id == c.control_id then applyControlUpdate r c
          else r), n) := by
      unfold upsert_control_def
      dsimp only
      rw [if_pos hany]
    have hfst : (upsert_control_def (table, n) c).1 =
        table.map (fun r => if r.control_id == c.control_id then applyControlUpdate r c
          else r) := by
      rw [hpair]
    obtain ⟨r0, hr0mem, hr0⟩ := List.any_eq_true.mp hany
    have hany2 : (table.map (fun r => if r.control_id == c.control_id then
        applyControlUpdate r c else r)).any (fun r => r.control_id == c.control_id) = true := by
      apply List.any_eq_true.mpr
      refine ⟨(if r0.control_id == c.control_id then applyControlUpdate r0 c else r0),
        List.mem_map_of_mem _ hr0mem, ?_⟩
      rw [upd_control_id]
      exact hr0
    refine ⟨?_, ?_, ?_, ?_⟩
    · rw [hpair]
      unfold upsert_control_def
      dsimp only
      rw [if_pos hany2, List.map_map]
      apply List.map_congr_left
      intro r hr
      by_cases hmatch : (r.control_id == c.control_id) = true
      · simp only [Function.comp_apply, if_pos hmatch, upd_control_id]
        rw [if_pos (show ((applyControlUpdate r c).control_id == c.control_id) = true
          from hmatch)]
        rfl
      · simp only [Function.comp_apply, if_neg hmatch]
    · rw [hfst, filter_length_map_upd]
      exact filter_length_one_of_nodup c.control_id table hnodup hany
    · intro r' hr' hcid
      rw [hfst] at hr'
      obtain ⟨r, hrmem, rfl⟩ := List.mem_map.mp hr'
      by_cases hmatch : (r.control_id == c.control_id) = true
      · rw [if_pos hmatch]
        exact ⟨rfl, rfl, rfl, rfl, rfl, rfl⟩
      · exfalso
        rw [upd_control_id] at hcid
        exact hmatch (by simp [hcid])
    · intro r hrmem
      rw [hfst]
      exact ⟨(if r.control_id == c.control_id then applyControlUpdate r c else r),
        List.mem_map_of_mem _ hrmem, upd_id c r, upd_control_id c r⟩
  · have hpair : upsert_control_def (table, n) c = (table ++ [newControlRow n c], n + 1) := by
      unfold upsert_control_def
      dsimp only
      rw [if_neg hany]
    have hfst : (upsert_control_def (table, n) c).1 = table ++ [newControlRow n c] := by
      rw [hpair]
    have hnotmem : ∀ r ∈ table, (r.control_id == c.control_id) = false := by
      intro r hr
      by_contra habs
      exact hany (List.any_eq_true.mpr ⟨r, hr, by simpa using habs⟩)
    have hnewmatch : ((newControlRow n c).control_id == c.control_id) = true := by
      simp [newControlRow]
    refine ⟨?_, ?_, ?_, ?_⟩
    · rw [hpair]
      unfold upsert_control_def
      dsimp only
      rw [if_pos (List.any_eq_true.mpr
          ⟨newControlRow n c, List.mem_append_right _ (List.mem_singleton_self _), hnewmatch⟩),
        List.map_append]
      have hmt : table.map (fun r => if r.control_id == c.control_id then
          applyControlUpdate r c else r) = table.map id := by
        apply List.map_congr_left
        intro r hr
        rw [if_neg (by rw [hnotmem r hr]; exact Bool.false_ne_true)]
        rfl
      rw [hmt, List.map_id, List.map_cons, List.map_nil, if_pos hnewmatch]
      rfl
    · rw [hfst, List.filter_append]
      have h0 : table.filter (fun r => r.control_id == c.control_id) = [] := by
        rw [List.filter_eq_nil_iff]
        intro r hr
        rw [hnotmem r hr]
        exact Bool.false_ne_true
      rw [h0, List.filter_cons, if_pos hnewmatch]
      rfl
    · intro r' hr' hcid
      rw [hfst] at hr'
      rcases List.mem_append.mp hr' with hin | hin
      · exfalso
        have := hnotmem r' hin
        simp [hcid] at this
      · have : r' = newControlRow n c := by simpa using hin
        rw [this]
        exact ⟨rfl, rfl, rfl, rfl, rfl, rfl⟩
    · intro r hrmem
      rw [hfst]
      exact ⟨r, List.mem_append_left _ hrmem, rfl, rfl⟩

/-- A concrete normalized control definition for the C8 witness. -/
def cc61_def : ControlDef :=
  { control_id := "CC6.1"
    name := "Logical Access Controls"
    risk := "Unauthorized access to production systems"
    expected_state :=
      { mfa_required_for_privileged_users := some true
        admin_access_restricted := some true }
    evidence_sources := ["cloud_iam"]
    severity := Severity.high
    check_frequency := "daily" }

/-- Witness for C8: upsert into the empty registry. -/
theorem c8_upsert_idempotent_by_control_id_witness :
    (upsert_control_def (upsert_control_def ([], 0) cc61_def) cc61_def).1 =
      (upsert_control_def (([] : List ControlRow), 0) cc61_def).1 ∧
    ((upsert_control_def (([] : List ControlRow), 0) cc61_def).1.filter
      (fun r => r.control_id == cc61_def.control_id)).length = 1 ∧
    (∀ r ∈ (upsert_control_def (([] : List ControlRow), 0) cc61_def).1,
      r.control_id = cc61_def.control_id →
      (r.name = cc61_def.name ∧ r.risk = cc61_def.risk ∧
       r.expected_state = cc61_def.expected_state ∧
       r.evidence_sources = cc61_def.evidence_sources ∧
       r.severity = cc61_def.severity ∧
       r.check_frequency = cc61_def.check_frequency)) ∧
    (∀ r ∈ ([] : List ControlRow),
      ∃ q ∈ (upsert_control_def (([] : List ControlRow), 0) cc61_def).1,
        q.id = r.id ∧ q.control_id = r.control_id) := by
  exact c8_upsert_idempotent_by_control_id [] 0 cc61_def (by simp)

/-- Claim C9. The Evidence insert path enforces the
`(control_id, source_system, collected_at)` uniqueness constraint: a
successful insert only appends the new row (existing rows are never
modified — there is no update path), it preserves the at-most-one-per-triple
invariant, and repeating the same insert afterwards is rejected, so the
same collection run twice cannot produce two rows for the triple. -/
theorem c9_evidence_triple_unique_invariant (rows : List EvidenceRow) (r : EvidenceRow)
    (rows2 : List EvidenceRow) (hun : evidence_triple_unique rows)
    (hok : insert_evidence rows r = Except.ok rows2) :
    rows2 = rows ++ [r] ∧ evidence_triple_unique rows2 ∧
      insert_evidence rows2 r = Except.error "uq_evidence_snapshot" := by
  unfold insert_evidence at hok
  by_cases hany : rows.any (fun e => sameTriple e r) = true
  · rw [if_pos hany] at hok
    cases hok
  · rw [if_neg hany] at hok
    have hr2 : rows2 = rows ++ [r] := by
      cases hok
      rfl
    subst hr2
    have hnot : ∀ e ∈ rows, sameTriple e r = false := by
      intro e he
      by_contra habs
      exact hany (List.any_eq_true.mpr ⟨e, he, by simpa using habs⟩)
    refine ⟨rfl, ?_, ?_⟩
    · unfold evidence_triple_unique at hun ⊢
      rw [List.pairwise_append]
      exact ⟨hun, List.pairwise_singleton _ _, fun a ha b hb => by
        have : b = r := by simpa using hb
        rw [this]
        exact hnot a ha⟩
    · unfold insert_evidence
      rw [if_pos]
      apply List.any_eq_true.mpr
      refine ⟨r, List.mem_append_right _ (by simp), ?_⟩
      simp [sameTriple]

/-- A concrete Evidence row for the C9 witness. -/
def sample_evidence_row : EvidenceRow :=
  { id := 0
    control_id := "CC6.1"
    source_system := "cloud_iam"
    collected_at := 0
    raw_snapshot := {} }

/-- Witness for C9: inserting into the empty store succeeds once and is
rejected on the identical re-insert. -/
theorem c9_evidence_triple_unique_invariant_witness :
    [sample_evidence_row] = [] ++ [sample_evidence_row] ∧
    evidence_triple_unique [sample_evidence_row] ∧
    insert_evidence [sample_evidence_row] sample_evidence_row =
      Except.error "uq_evidence_snapshot" := by
  exact c9_evidence_triple_unique_invariant [] sample_evidence_row [sample_evidence_row]
    (List.Pairwise.nil) rfl

end CCE
